import Mathlib

/-!
Shallow embedding of `app.py` (wellness-AI-Chatbot): a single Streamlit
script that runs top to bottom on every interaction.  We model

* the three adapter functions `transcribe_with_whisper`, `chat_response`
  and `synthesize_gtts` (remote calls become function parameters returning
  `Except`);
* the startup section (environment read, key check, client creation) as an
  effect trace;
* one full script pass (`scriptRun`): session-state init, the Clear Chat
  button, the ask ("run") handler with its temporary-file handling, the
  chat display, and the voice-output block.

The filesystem is a list of existing paths; the session log is a list of
`(user_text, bot_text)` pairs, exactly the tuples appended at line 165 of
the source.
-/

/-- Whitespace characters removed by Python `str.strip()` (ASCII part). -/
def pyIsSpace (c : Char) : Bool :=
  c = ' ' ∨ c = '\t' ∨ c = '\n' ∨ c = '\r' ∨ c = '\x0b' ∨ c = '\x0c'

/-- Python `str.strip()` as used in `app.py`: drop leading and trailing
whitespace. -/
def pyStrip (s : String) : String :=
  String.mk (((s.toList.dropWhile pyIsSpace).reverse.dropWhile pyIsSpace).reverse)

/-- The fixed persona instruction `SYSTEM_PROMPT` (lines 82-87). -/
def SYSTEM_PROMPT : String :=
  "You are a calm, empathetic Indian wellness guide. Answer in 2–4 short sentences. Draw on meditation, pranayama, yoga, Ayurveda, and Indian spiritual wisdom in simple, practical language. Avoid medical claims; suggest consulting professionals for serious issues."

/-- One message of the completion request (role, content). -/
structure ChatMessage where
  role : String
  content : String
deriving DecidableEq, Repr

/-- The request `chat_response` sends to the completion API (lines 108-116).
Temperature 0.7 is kept exactly as tenths to avoid floating point. -/
structure ChatRequest where
  model : String
  messages : List ChatMessage
  temperatureTenths : Nat
  max_tokens : Nat
deriving DecidableEq, Repr

/-- `chat_response` (lines 107-117): builds the two-message exchange and
strips the API reply.  The remote call is the parameter `api`. -/
def chat_response (api : ChatRequest → Except String String)
    (user_text : String) : Except String String :=
  (api ⟨"gpt-4o-mini",
        [⟨"system", SYSTEM_PROMPT⟩, ⟨"user", user_text⟩], 7, 250⟩).map pyStrip

/-- The request `transcribe_with_whisper` sends (lines 100-104). -/
structure TranscriptionRequest where
  model : String
  file : String
  temperature : Nat
deriving DecidableEq, Repr

/-- `transcribe_with_whisper` (lines 98-105): calls the transcription API on
the opened file at `path` with zero temperature and strips the result. -/
def transcribe_with_whisper (api : TranscriptionRequest → Except String String)
    (path : String) : Except String String :=
  (api ⟨"whisper-1", path, 0⟩).map pyStrip

/-- The parameters of one gTTS synthesis invocation (line 121). -/
structure GttsCall where
  text : String
  lang : String
  tld : String
  slow : Bool
deriving DecidableEq, Repr

/-- `synthesize_gtts` (lines 119-125): picks the locale variant and builds
the gTTS call.  The audio buffer itself is not modelled; the call record is what
the claims are about. -/
def synthesize_gtts (text : String) (lang_code : String)
    (indian_accent : Bool) : GttsCall :=
  let tld := if lang_code = "en" ∧ indian_accent = true then "co.in" else "com"
  ⟨text, lang_code, tld, false⟩

/-- A conversation turn `(user_text, bot_text)` as appended at line 165. -/
abbrev Turn := String × String

/-- Python `s.startswith(p)` (line 180): `p` is a prefix of `s`. -/
def pyStartswith (s p : String) : Bool :=
  p.toList.isPrefixOf s.toList

/-- The voice-output block (lines 177-184): if the log is non-empty,
synthesize the last bot reply, dispatching on
`lang_choice.startswith("Hindi")`; `indian_accent` defaults to `True` in
both calls. -/
def voiceOutput (lang_choice : String) (chat_history : List Turn) :
    Option GttsCall :=
  match chat_history.getLast? with
  | none => none
  | some last =>
    if pyStartswith lang_choice "Hindi" then
      some (synthesize_gtts last.2 "hi" true)
    else
      some (synthesize_gtts last.2 "en" true)

/-- An uploaded audio file (name and raw bytes). -/
structure AudioFile where
  name : String
  content : List Nat
deriving DecidableEq, Repr

/-- The widget values collected in one render (lines 129-132 and the Clear
Chat button at line 138). -/
structure Widgets where
  audio_file : Option AudioFile
  typed : String
  lang_choice : String
  run : Bool
  clear_clicked : Bool
deriving Repr

/-- Session state entering a script pass: the stored chat history (absent on
the very first render) and the set of files existing on disk. -/
structure SessionState where
  chat_history : Option (List Turn)
  fs : List String
deriving Repr

/-- Observable outcome of one script pass: the resulting log and filesystem,
whether the no-input warning fired, the arguments of every adapter
invocation, an uncaught adapter error if one aborted the pass, and whether
`st.experimental_rerun` was triggered. -/
structure ScriptResult where
  chat_history : List Turn
  fs : List String
  warned : Bool
  transcribeCalls : List String
  chatCalls : List String
  synthCalls : List GttsCall
  error : Option String
  rerun : Bool
deriving Repr

/-- `os.remove` on the path model (line 158). -/
def os_remove (fs : List String) (path : String) : List String :=
  fs.filter (fun q => q ≠ path)

/-- Lines 162-186 of the run handler once `user_text` is settled: call
`chat_response`; an error aborts the pass, otherwise the turn is appended
(line 165) and the display plus voice-output block run on the new log.
`fsOut` and `tcalls` carry the filesystem and the transcription calls of the
preceding input phase. -/
def askChat (chatF : String → Except String String) (lang_choice : String)
    (history0 : List Turn) (user_text : String) (fsOut : List String)
    (tcalls : List String) : ScriptResult :=
  match chatF user_text with
  | .error e => ⟨history0, fsOut, false, tcalls, [user_text], [], some e, false⟩
  | .ok bot_text =>
    let hist1 := history0 ++ [(user_text, bot_text)]
    ⟨hist1, fsOut, false, tcalls, [user_text],
      (voiceOutput lang_choice hist1).toList, none, false⟩

/-- One full pass of the script body after startup (lines 128-186).

`transcribeF` and `chatF` stand for `transcribe_with_whisper` and
`chat_response` exactly as the run handler calls them (path → transcript,
user text → reply); `tmp_path` is the fresh name `NamedTemporaryFile`
chooses for this pass.  Control flow follows the source: session-state init
(135-136); Clear Chat empties the log and reruns, ending the pass (138-140);
the run handler (143-165) warns and stops when neither input is present,
overwrites the typed text with the transcript when audio is present, always
removes the temporary file in the `finally` block, aborts on an adapter
error, and otherwise appends exactly one turn; finally the display and the
voice-output block run on whatever log is current. -/
def scriptRun (transcribeF : String → Except String String)
    (chatF : String → Except String String) (tmp_path : String)
    (w : Widgets) (st0 : SessionState) : ScriptResult :=
  let history0 := st0.chat_history.getD []
  if w.clear_clicked then
    ⟨[], st0.fs, false, [], [], [], none, true⟩
  else if w.run then
    if w.audio_file = none ∧ w.typed = "" then
      ⟨history0, st0.fs, true, [], [], [], none, false⟩
    else
      let user_text0 := if w.typed ≠ "" then pyStrip w.typed else ""
      match w.audio_file with
      | some _ =>
        let fs1 := st0.fs ++ [tmp_path]
        let fs2 := os_remove fs1 tmp_path
        (match transcribeF tmp_path with
         | .error e => ⟨history0, fs2, false, [tmp_path], [], [], some e, false⟩
         | .ok user_text =>
           askChat chatF w.lang_choice history0 user_text fs2 [tmp_path])
      | none => askChat chatF w.lang_choice history0 user_text0 st0.fs []
  else
    ⟨history0, st0.fs, false, [], [],
      (voiceOutput w.lang_choice history0).toList, none, false⟩

/-- One observable step of the startup section (lines 7-95): the static
page-config/styling/banner renders, the single `os.environ.get` read, the
`st.error` report, `st.stop`, and the creation of the OpenAI client from
the key held in `OPENAI_KEY`. -/
inductive StartupStep where
  | set_page_config
  | render_styling
  | render_banner
  | env_get (key : String) (value : Option String)
  | st_error (msg : String)
  | st_stop
  | make_client (api_key : String)
deriving DecidableEq, Repr

/-- The message shown at line 92. -/
def missingKeyMsg : String :=
  "OPENAI_API_KEY is missing. Set it in your environment."

/-- The startup section as an effect trace (lines 7-95).  `env` models
`os.environ`.  The key is read once (line 90); `if not OPENAI_KEY` treats
both an absent variable and an empty value as falsy, so either reports the
error and stops; otherwise the client is created from the key (line 95). -/
def startup (env : String → Option String) : List StartupStep :=
  let v := env "OPENAI_API_KEY"
  [StartupStep.set_page_config, StartupStep.render_styling,
   StartupStep.render_banner, StartupStep.env_get "OPENAI_API_KEY" v] ++
  (match v with
   | none => [StartupStep.st_error missingKeyMsg, StartupStep.st_stop]
   | some k =>
     if k = "" then [StartupStep.st_error missingKeyMsg, StartupStep.st_stop]
     else [StartupStep.make_client k])

/-- Recognizes the environment-read step. -/
def isEnvGet : StartupStep → Bool
  | .env_get _ _ => true
  | _ => false

/-- `askChat` lands at the reply of `chat_response`: the log grows by the one
turn on success and is untouched on error. -/
theorem askChat_ok {chatF : String → Except String String} {u bot : String}
    (lang_choice : String) (history0 : List Turn) (fsOut tcalls : List String)
    (h : chatF u = Except.ok bot) :
    askChat chatF lang_choice history0 u fsOut tcalls =
      ⟨history0 ++ [(u, bot)], fsOut, false, tcalls, [u],
        (voiceOutput lang_choice (history0 ++ [(u, bot)])).toList,
        none, false⟩ := by
  unfold askChat
  rw [h]

/-- On a completion error `askChat` aborts: nothing appended, no synthesis. -/
theorem askChat_error {chatF : String → Except String String} {u e : String}
    (lang_choice : String) (history0 : List Turn) (fsOut tcalls : List String)
    (h : chatF u = Except.error e) :
    askChat chatF lang_choice history0 u fsOut tcalls =
      ⟨history0, fsOut, false, tcalls, [u], [], some e, false⟩ := by
  unfold askChat
  rw [h]

/-- `askChat` never touches the filesystem. -/
theorem askChat_fs (chatF : String → Except String String)
    (lang_choice : String) (history0 : List Turn) (u : String)
    (fsOut tcalls : List String) :
    (askChat chatF lang_choice history0 u fsOut tcalls).fs = fsOut := by
  unfold askChat
  cases chatF u <;> rfl

/-- `chat_response` is called exactly once by `askChat`, on `user_text`. -/
theorem askChat_chatCalls (chatF : String → Except String String)
    (lang_choice : String) (history0 : List Turn) (u : String)
    (fsOut tcalls : List String) :
    (askChat chatF lang_choice history0 u fsOut tcalls).chatCalls = [u] := by
  unfold askChat
  cases chatF u <;> rfl

/-- Claim C1 as stated is false: the run handler appends `typed.strip()`
(line 148), not the typed text itself.  With typed input `" hi "` (non-empty,
no audio) and a completion adapter returning `"ok"`, the appended turn is
`("hi", "ok")`, whose first component differs from the typed text. -/
theorem C1_counterexample :
    (scriptRun (fun _ => Except.error "unused") (fun _ => Except.ok "ok")
        "/tmp/t" ⟨none, " hi ", "English (India)", true, false⟩
        ⟨some [], []⟩).chat_history = [("hi", "ok")] ∧
      (" hi " : String) ≠ "hi" := by
  refine ⟨by rfl, by decide⟩

/-- Claim C1 amended: for every non-empty typed input (no audio) and a
completion adapter returning `T`, the appended turn is
`(typed.strip(), T)` — the typed text with outer whitespace removed, which
equals the typed text whenever the latter is already trimmed. -/
theorem C1_last_turn_is_trimmed_input
    (transcribeF : String → Except String String)
    (T tmp_path typed lang_choice : String) (hist : List Turn)
    (fs : List String) (h : typed ≠ "") :
    (scriptRun transcribeF (fun _ => Except.ok T) tmp_path
        ⟨none, typed, lang_choice, true, false⟩
        ⟨some hist, fs⟩).chat_history = hist ++ [(pyStrip typed, T)] := by
  unfold scriptRun
  simp [h, askChat]

/-- Witness for C1 on the scenario input of the spec. -/
theorem C1_witness :
    ("I feel anxious before exams" : String) ≠ "" ∧
      (scriptRun (fun _ => Except.error "unused")
          (fun _ => Except.ok "Breathe slowly for four counts, hold, then release — this calms the nervous system. Try this before your exam.")
          "/tmp/t"
          ⟨none, "I feel anxious before exams", "English (India)", true, false⟩
          ⟨some [], []⟩).chat_history =
        [("I feel anxious before exams",
          "Breathe slowly for four counts, hold, then release — this calms the nervous system. Try this before your exam.")] := by
  refine ⟨by decide, ?_⟩
  rw [C1_last_turn_is_trimmed_input _ _ _ _ _ _ _ (by decide)]
  rfl

/-- Claim C3: triggering the Clear Chat action always results in an empty
session log, whatever the prior log contents and size (lines 138-140 set
`chat_history = []`). -/
theorem C3_clear_empties_log (transcribeF chatF : String → Except String String)
    (tmp_path : String) (w : Widgets) (st0 : SessionState)
    (h : w.clear_clicked = true) :
    (scriptRun transcribeF chatF tmp_path w st0).chat_history = [] := by
  unfold scriptRun
  simp [h]

/-- Witness for C3 at a concrete two-turn log. -/
theorem C3_witness :
    (scriptRun (fun _ => Except.error "e") (fun _ => Except.ok "r") "/tmp/t"
      ⟨none, "hi", "Hindi", true, true⟩
      ⟨some [("a", "b"), ("c", "d")], ["f"]⟩).chat_history = [] :=
  C3_clear_empties_log _ _ _ _ _ rfl

/-- Claim C4: if the ask trigger fires with no audio file and no typed text,
the guard at lines 144-146 shows the warning and `st.stop()` ends the pass:
no adapter (transcription, completion or synthesis) is invoked, the log and
the filesystem are unchanged. -/
theorem C4_no_input_no_calls (transcribeF chatF : String → Except String String)
    (tmp_path lang_choice : String) (hist : List Turn) (fs : List String) :
    (scriptRun transcribeF chatF tmp_path
        ⟨none, "", lang_choice, true, false⟩ ⟨some hist, fs⟩).warned = true ∧
    (scriptRun transcribeF chatF tmp_path
        ⟨none, "", lang_choice, true, false⟩ ⟨some hist, fs⟩).chat_history = hist ∧
    (scriptRun transcribeF chatF tmp_path
        ⟨none, "", lang_choice, true, false⟩ ⟨some hist, fs⟩).transcribeCalls = [] ∧
    (scriptRun transcribeF chatF tmp_path
        ⟨none, "", lang_choice, true, false⟩ ⟨some hist, fs⟩).chatCalls = [] ∧
    (scriptRun transcribeF chatF tmp_path
        ⟨none, "", lang_choice, true, false⟩ ⟨some hist, fs⟩).synthCalls = [] ∧
    (scriptRun transcribeF chatF tmp_path
        ⟨none, "", lang_choice, true, false⟩ ⟨some hist, fs⟩).fs = fs := by
  unfold scriptRun
  simp

/-- Claim C5: for every audio upload the temporary file is gone after the
transcription adapter returns — the `finally` block at lines 156-160 removes
it on the success path and on the error path alike (`transcribeF` here is
universally quantified, so both outcomes are covered). -/
theorem C5_tempfile_removed (transcribeF chatF : String → Except String String)
    (tmp_path typed lang_choice : String) (af : AudioFile) (hist : List Turn)
    (fs : List String) :
    tmp_path ∉ (scriptRun transcribeF chatF tmp_path
        ⟨some af, typed, lang_choice, true, false⟩ ⟨some hist, fs⟩).fs := by
  unfold scriptRun
  cases htr : transcribeF tmp_path with
  | error e => simp [os_remove]
  | ok tr => simp [htr, askChat_fs, os_remove]

/-- Claim C2 as stated is false: an audio cycle whose transcript is empty
(the transcription contract allows this) reaches line 163 with
`user_text = ""`, so `chat_response` is invoked with the empty string. -/
theorem C2_counterexample :
    (scriptRun (fun _ => Except.ok "") (fun _ => Except.ok "x") "/tmp/t"
        ⟨some ⟨"clip.wav", [1, 2]⟩, "", "Hindi", true, false⟩
        ⟨some [], []⟩).chatCalls = [""] := by
  rfl

/-- Claim C2 amended: on an ask cycle with no audio whose typed input
contains a non-whitespace character, the text passed to `chat_response` is
non-empty; a cycle whose input came from audio passes the transcript
verbatim, which may be empty, and a whitespace-only typed input likewise
yields an empty-text call. -/
theorem C2_typed_chat_calls_nonempty
    (transcribeF chatF : String → Except String String)
    (tmp_path typed lang_choice : String) (hist : List Turn)
    (fs : List String) (h : pyStrip typed ≠ "") :
    ∀ s ∈ (scriptRun transcribeF chatF tmp_path
        ⟨none, typed, lang_choice, true, false⟩ ⟨some hist, fs⟩).chatCalls,
      s ≠ "" := by
  have htyped : typed ≠ "" := by
    intro he
    exact h (by rw [he]; rfl)
  unfold scriptRun
  simp [htyped, askChat_chatCalls]
  exact h

/-- Witness for C2 at a concrete non-whitespace typed input. -/
theorem C2_witness :
    pyStrip "hello" ≠ "" ∧
      ∀ s ∈ (scriptRun (fun _ => Except.error "unused")
          (fun _ => Except.ok "reply") "/tmp/t"
          ⟨none, "hello", "Hindi", true, false⟩ ⟨some [], []⟩).chatCalls,
        s ≠ "" :=
  ⟨by decide,
   C2_typed_chat_calls_nonempty _ _ _ _ _ _ _ (by decide)⟩

/-- Every gTTS call made by the voice-output block follows the dispatch at
lines 180-183: a `Hindi`-prefixed selection yields language code `hi` (and
the generic `com` host), anything else yields `en` with the India accent
flag, hence the `co.in` host. -/
theorem voiceOutput_locale (lang_choice : String) (hist : List Turn)
    (c : GttsCall) (hc : voiceOutput lang_choice hist = some c) :
    (pyStartswith lang_choice "Hindi" = true →
        c.lang = "hi" ∧ c.tld = "com") ∧
      (pyStartswith lang_choice "Hindi" = false →
        c.lang = "en" ∧ c.tld = "co.in") := by
  unfold voiceOutput at hc
  cases hl : hist.getLast? with
  | none =>
    rw [hl] at hc
    simp at hc
  | some last =>
    rw [hl] at hc
    dsimp only at hc
    by_cases hs : pyStartswith lang_choice "Hindi" = true
    · rw [if_pos hs] at hc
      injection hc with hc2
      refine ⟨fun _ => ?_, fun hf => ?_⟩
      · rw [← hc2]
        exact ⟨rfl, rfl⟩
      · rw [hs] at hf
        cases hf
    · rw [if_neg hs] at hc
      injection hc with hc2
      refine ⟨fun ht => absurd ht hs, fun _ => ?_⟩
      rw [← hc2]
      exact ⟨rfl, rfl⟩

/-- In every branch of a script pass, the synthesis calls are those of the
voice-output block on some log (possibly none at all). -/
theorem synthCalls_from_voiceOutput
    (transcribeF chatF : String → Except String String) (tmp_path : String)
    (w : Widgets) (st0 : SessionState) :
    (scriptRun transcribeF chatF tmp_path w st0).synthCalls = [] ∨
      ∃ hist, (scriptRun transcribeF chatF tmp_path w st0).synthCalls =
        (voiceOutput w.lang_choice hist).toList := by
  obtain ⟨af, ty, lc, rn, cl⟩ := w
  unfold scriptRun
  dsimp only
  cases cl with
  | true => left; rfl
  | false =>
    cases rn with
    | false =>
      right
      exact ⟨st0.chat_history.getD [], rfl⟩
    | true =>
      by_cases hg : af = none ∧ ty = ""
      · obtain ⟨haf, hty⟩ := hg
        subst haf
        subst hty
        left
        rfl
      · rw [if_neg hg]
        cases af with
        | some a =>
          cases htr : transcribeF tmp_path with
          | error e =>
            left
            simp only [htr]
            rfl
          | ok tr =>
            cases hch : chatF tr with
            | error e =>
              left
              simp only [htr]
              rw [askChat_error _ _ _ _ hch]
              rfl
            | ok bot =>
              right
              refine ⟨st0.chat_history.getD [] ++ [(tr, bot)], ?_⟩
              simp only [htr]
              rw [askChat_ok _ _ _ _ hch]
              rfl
        | none =>
          cases hch : chatF (if ty ≠ "" then pyStrip ty else "") with
          | error e =>
            left
            rw [askChat_error _ _ _ _ hch]
            rfl
          | ok bot =>
            right
            refine ⟨st0.chat_history.getD [] ++
              [((if ty ≠ "" then pyStrip ty else ""), bot)], ?_⟩
            rw [askChat_ok _ _ _ _ hch]
            rfl

/-- Claim C6: whenever a script pass synthesizes speech, the Hindi selection
yields language code `hi`, and the other selectbox option,
`English (India)`, yields language code `en` with the India-locale `co.in`
host. -/
theorem C6_synthesis_locale
    (transcribeF chatF : String → Except String String) (tmp_path : String)
    (w : Widgets) (st0 : SessionState) (c : GttsCall)
    (hc : c ∈ (scriptRun transcribeF chatF tmp_path w st0).synthCalls) :
    (w.lang_choice = "Hindi" → c.lang = "hi") ∧
      (w.lang_choice = "English (India)" →
        c.lang = "en" ∧ c.tld = "co.in") := by
  rcases synthCalls_from_voiceOutput transcribeF chatF tmp_path w st0 with
    hnil | ⟨hist, hvo⟩
  · rw [hnil] at hc
    cases hc
  · rw [hvo] at hc
    cases hv : voiceOutput w.lang_choice hist with
    | none => rw [hv] at hc; cases hc
    | some c0 =>
      rw [hv] at hc
      have hcc : c = c0 := by
        simpa using hc
      rw [hcc]
      have hl := voiceOutput_locale w.lang_choice hist c0 hv
      constructor
      · intro hw
        rw [hw] at hl
        exact (hl.1 (by decide)).1
      · intro hw
        rw [hw] at hl
        exact hl.2 (by decide)

/-- Witness for C6: a pass with an existing log and the Hindi selection
produces a `hi` call; the conclusion is evaluated at that call. -/
theorem C6_witness :
    (⟨"b", "hi", "com", false⟩ : GttsCall) ∈
        (scriptRun (fun _ => Except.error "unused")
          (fun _ => Except.ok "r") "/tmp/t"
          ⟨none, "q", "Hindi", false, false⟩
          ⟨some [("a", "b")], []⟩).synthCalls ∧
      (("Hindi" : String) = "Hindi" →
        (⟨"b", "hi", "com", false⟩ : GttsCall).lang = "hi") := by
  have hm : (⟨"b", "hi", "com", false⟩ : GttsCall) ∈
      (scriptRun (fun _ => Except.error "unused")
        (fun _ => Except.ok "r") "/tmp/t"
        ⟨none, "q", "Hindi", false, false⟩
        ⟨some [("a", "b")], []⟩).synthCalls := by
    decide
  exact ⟨hm, (C6_synthesis_locale _ _ _ _ _ _ hm).1⟩

/-- Claim C7: whenever an ask cycle ends with an uncaught adapter error
(transcription or completion), the pass aborts with the log exactly as
before and no speech synthesized. -/
theorem C7_adapter_error_aborts
    (transcribeF chatF : String → Except String String) (tmp_path : String)
    (w : Widgets) (st0 : SessionState) (hist : List Turn)
    (hh : st0.chat_history = some hist)
    (he : (scriptRun transcribeF chatF tmp_path w st0).error.isSome = true) :
    (scriptRun transcribeF chatF tmp_path w st0).chat_history = hist ∧
      (scriptRun transcribeF chatF tmp_path w st0).synthCalls = [] := by
  obtain ⟨af, ty, lc, rn, cl⟩ := w
  unfold scriptRun at he ⊢
  dsimp only at he ⊢
  cases cl with
  | true => simp at he
  | false =>
    cases rn with
    | false => simp at he
    | true =>
      by_cases hg : af = none ∧ ty = ""
      · obtain ⟨haf, hty⟩ := hg
        subst haf
        subst hty
        simp at he
      · rw [if_neg hg] at he ⊢
        cases af with
        | some a =>
          cases htr : transcribeF tmp_path with
          | error e =>
            simp only [htr] at he ⊢
            exact ⟨by simp [hh], by simp⟩
          | ok tr =>
            simp only [htr] at he ⊢
            cases hch : chatF tr with
            | error e =>
              rw [askChat_error _ _ _ _ hch] at he ⊢
              exact ⟨by simp [hh], by simp⟩
            | ok bot =>
              rw [askChat_ok _ _ _ _ hch] at he
              simp at he
        | none =>
          cases hch : chatF (if ty ≠ "" then pyStrip ty else "") with
          | error e =>
            rw [askChat_error _ _ _ _ hch] at he ⊢
            exact ⟨by simp [hh], by simp⟩
          | ok bot =>
            rw [askChat_ok _ _ _ _ hch] at he
            simp at he

/-- Witness for C7: a completion adapter that raises leaves the one-turn log
untouched and synthesizes nothing. -/
theorem C7_witness :
    (scriptRun (fun _ => Except.error "boom") (fun _ => Except.error "boom")
        "/tmp/t" ⟨none, "hello", "Hindi", true, false⟩
        ⟨some [("a", "b")], []⟩).chat_history = [("a", "b")] ∧
      (scriptRun (fun _ => Except.error "boom") (fun _ => Except.error "boom")
        "/tmp/t" ⟨none, "hello", "Hindi", true, false⟩
        ⟨some [("a", "b")], []⟩).synthCalls = [] :=
  C7_adapter_error_aborts _ _ _ _ _ _ rfl (by decide)

/-- Claim C9: every script pass either leaves the session log unchanged,
appends exactly one turn at its end, or replaces it with the empty log; no
existing turn is mutated or individually removed. -/
theorem C9_append_only
    (transcribeF chatF : String → Except String String) (tmp_path : String)
    (w : Widgets) (st0 : SessionState) (hist : List Turn)
    (hh : st0.chat_history = some hist) :
    (scriptRun transcribeF chatF tmp_path w st0).chat_history = hist ∨
      (∃ t, (scriptRun transcribeF chatF tmp_path w st0).chat_history =
        hist ++ [t]) ∨
      (scriptRun transcribeF chatF tmp_path w st0).chat_history = [] := by
  obtain ⟨af, ty, lc, rn, cl⟩ := w
  unfold scriptRun
  dsimp only
  cases cl with
  | true =>
    right
    right
    rfl
  | false =>
    cases rn with
    | false =>
      left
      simp [hh]
    | true =>
      by_cases hg : af = none ∧ ty = ""
      · obtain ⟨haf, hty⟩ := hg
        subst haf
        subst hty
        left
        simp [hh]
      · rw [if_neg hg]
        cases af with
        | some a =>
          cases htr : transcribeF tmp_path with
          | error e =>
            left
            simp [htr, hh]
          | ok tr =>
            simp only [htr]
            cases hch : chatF tr with
            | error e =>
              left
              rw [askChat_error _ _ _ _ hch]
              simp [hh]
            | ok bot =>
              right
              left
              exact ⟨(tr, bot), by rw [askChat_ok _ _ _ _ hch]; simp [hh]⟩
        | none =>
          cases hch : chatF (if ty ≠ "" then pyStrip ty else "") with
          | error e =>
            left
            rw [askChat_error _ _ _ _ hch]
            simp [hh]
          | ok bot =>
            right
            left
            exact ⟨((if ty ≠ "" then pyStrip ty else ""), bot),
              by rw [askChat_ok _ _ _ _ hch]; simp [hh]⟩

/-- Witness for C9 at a completed ask cycle over a one-turn log. -/
theorem C9_witness :
    (scriptRun (fun _ => Except.ok "t") (fun _ => Except.ok "r") "/tmp/t"
        ⟨none, "x", "Hindi", true, false⟩
        ⟨some [("a", "b")], []⟩).chat_history = [("a", "b")] ∨
      (∃ t, (scriptRun (fun _ => Except.ok "t") (fun _ => Except.ok "r")
        "/tmp/t" ⟨none, "x", "Hindi", true, false⟩
        ⟨some [("a", "b")], []⟩).chat_history = [("a", "b")] ++ [t]) ∨
      (scriptRun (fun _ => Except.ok "t") (fun _ => Except.ok "r") "/tmp/t"
        ⟨none, "x", "Hindi", true, false⟩
        ⟨some [("a", "b")], []⟩).chat_history = [] :=
  C9_append_only _ _ _ _ _ _ rfl

/-- Claim C10: when both audio and typed text are supplied, the transcript
replaces the typed text entirely: the user text of the appended turn is the
transcript, `chat_response` receives the transcript, and the whole pass is
independent of the typed text. -/
theorem C10_transcript_replaces_typed
    (transcribeF chatF : String → Except String String)
    (tmp_path typed lang_choice tr bot : String) (af : AudioFile)
    (hist : List Turn) (fs : List String)
    (h1 : transcribeF tmp_path = Except.ok tr)
    (h2 : chatF tr = Except.ok bot) :
    (scriptRun transcribeF chatF tmp_path
        ⟨some af, typed, lang_choice, true, false⟩
        ⟨some hist, fs⟩).chat_history = hist ++ [(tr, bot)] ∧
      (scriptRun transcribeF chatF tmp_path
        ⟨some af, typed, lang_choice, true, false⟩
        ⟨some hist, fs⟩).chatCalls = [tr] ∧
      scriptRun transcribeF chatF tmp_path
          ⟨some af, typed, lang_choice, true, false⟩ ⟨some hist, fs⟩ =
        scriptRun transcribeF chatF tmp_path
          ⟨some af, "", lang_choice, true, false⟩ ⟨some hist, fs⟩ := by
  refine ⟨?_, ?_, ?_⟩
  · unfold scriptRun
    simp [h1, askChat_ok _ _ _ _ h2]
  · unfold scriptRun
    simp [h1, askChat_chatCalls]
  · unfold scriptRun
    simp

/-- Witness for C10: with a transcript and a reply mocked, the typed text
`"ignore me"` leaves no trace in the outcome. -/
theorem C10_witness :
    (scriptRun (fun _ => Except.ok "I feel stressed")
        (fun _ => Except.ok "Try yoga") "/tmp/t"
        ⟨some ⟨"c.mp3", [0]⟩, "ignore me", "Hindi", true, false⟩
        ⟨some [], []⟩).chat_history = [] ++ [("I feel stressed", "Try yoga")] ∧
      (scriptRun (fun _ => Except.ok "I feel stressed")
        (fun _ => Except.ok "Try yoga") "/tmp/t"
        ⟨some ⟨"c.mp3", [0]⟩, "ignore me", "Hindi", true, false⟩
        ⟨some [], []⟩).chatCalls = ["I feel stressed"] ∧
      scriptRun (fun _ => Except.ok "I feel stressed")
          (fun _ => Except.ok "Try yoga") "/tmp/t"
          ⟨some ⟨"c.mp3", [0]⟩, "ignore me", "Hindi", true, false⟩
          ⟨some [], []⟩ =
        scriptRun (fun _ => Except.ok "I feel stressed")
          (fun _ => Except.ok "Try yoga") "/tmp/t"
          ⟨some ⟨"c.mp3", [0]⟩, "", "Hindi", true, false⟩ ⟨some [], []⟩ :=
  C10_transcript_replaces_typed _ _ _ _ _ _ _ _ _ _ rfl rfl

/-- Claim C8 as stated is false on one point: with the environment variable
present but set to the empty string, `if not OPENAI_KEY` is still taken, so
the process reports the error and stops instead of proceeding. -/
theorem C8_counterexample :
    ((fun k => if k = "OPENAI_API_KEY" then some "" else none)
        "OPENAI_API_KEY" : Option String).isSome = true ∧
      startup (fun k => if k = "OPENAI_API_KEY" then some "" else none) =
        [StartupStep.set_page_config, StartupStep.render_styling,
         StartupStep.render_banner,
         StartupStep.env_get "OPENAI_API_KEY" (some ""),
         StartupStep.st_error missingKeyMsg, StartupStep.st_stop] :=
  ⟨rfl, rfl⟩

/-- Claim C8 amended: the credential is read exactly once in every startup;
if the variable is absent or empty, the error is reported and the process
stops with no client created and nothing after the stop; if it holds a
non-empty value, startup proceeds to create the client from it. -/
theorem C8_startup_key_check (env : String → Option String) :
    (startup env).countP (fun s => isEnvGet s) = 1 ∧
      (env "OPENAI_API_KEY" = none ∨ env "OPENAI_API_KEY" = some "" →
        startup env =
          [StartupStep.set_page_config, StartupStep.render_styling,
           StartupStep.render_banner,
           StartupStep.env_get "OPENAI_API_KEY" (env "OPENAI_API_KEY"),
           StartupStep.st_error missingKeyMsg, StartupStep.st_stop]) ∧
      (∀ k, env "OPENAI_API_KEY" = some k → k ≠ "" →
        startup env =
          [StartupStep.set_page_config, StartupStep.render_styling,
           StartupStep.render_banner,
           StartupStep.env_get "OPENAI_API_KEY" (some k),
           StartupStep.make_client k]) := by
  refine ⟨?_, ?_, ?_⟩
  · unfold startup
    cases hv : env "OPENAI_API_KEY" with
    | none => rfl
    | some k =>
      by_cases hk : k = ""
      · subst hk
        rfl
      · dsimp only
        rw [if_neg hk]
        rfl
  · intro hcase
    rcases hcase with hn | he
    · unfold startup
      rw [hn]
      rfl
    · unfold startup
      rw [he]
      rfl
  · intro k hk hkne
    unfold startup
    rw [hk]
    dsimp only
    rw [if_neg hkne]
    rfl

/-- Witness for C8 covering both discharged cases: an absent variable halts
after the error report, a non-empty one reaches client creation. -/
theorem C8_witness :
    startup (fun _ => none) =
        [StartupStep.set_page_config, StartupStep.render_styling,
         StartupStep.render_banner,
         StartupStep.env_get "OPENAI_API_KEY" none,
         StartupStep.st_error missingKeyMsg, StartupStep.st_stop] ∧
      startup (fun k => if k = "OPENAI_API_KEY" then some "sk-test" else none) =
        [StartupStep.set_page_config, StartupStep.render_styling,
         StartupStep.render_banner,
         StartupStep.env_get "OPENAI_API_KEY" (some "sk-test"),
         StartupStep.make_client "sk-test"] :=
  ⟨(C8_startup_key_check (fun _ => none)).2.1 (Or.inl rfl),
   (C8_startup_key_check _).2.2 "sk-test" rfl (by decide)⟩
